import Mathlib

/-!
Verification of the `convert` media-conversion service.

The service (FastAPI, `src/main.py`) accepts MP3 audio or video either as an
upload or as a remote URL, converts it (MP3 to MIDI via Basic Pitch, MP3 to WAV
via pydub, video to a still frame via ffmpeg), and returns either a download
URL or a direct file response.  The definitions below are a shallow embedding
of the relevant source functions:

* the transient store is a list of existing file paths (`FS`);
* pure helper logic (extension inference, image-format and quality
  normalization, ffmpeg command construction, output-file discovery) is
  transliterated from the Python source;
* effectful handler code is embedded as explicit state passing over `FS`,
  with the outcomes of the two external effects (the HTTP download and the
  ffmpeg subprocess) supplied as explicit scenario parameters;
* Python exceptions are modelled with `Except`.
-/

/-! ## Python string helpers -/

/-- `str.lower()` (ASCII case folding, which is all the service compares). -/
def pyLower (s : String) : String :=
  String.mk (s.data.map Char.toLower)

/-- `str.endswith(suffix)`. -/
def strEndsWith (s suffix : String) : Bool :=
  suffix.data.reverse.isPrefixOf s.data.reverse

/-- Python substring test `needle in hay`, on character lists. -/
def containsSub (needle : List Char) : List Char → Bool
  | [] => needle.isEmpty
  | c :: rest => needle.isPrefixOf (c :: rest) || containsSub needle rest

/-! ## Transient store model

A filesystem state is the list of paths that currently exist.  Paths in a real
filesystem are unique, so removal is modelled with `List.filter`. -/

/-- The transient store: the list of file paths that currently exist. -/
abbrev FS := List String

/-- `os.path.exists(p)`. -/
def osPathExists (fs : FS) (p : String) : Bool :=
  decide (p ∈ fs)

/-- `os.remove(p)`: deletes the file, raising (`Except.error`) if it is absent. -/
def osRemoveFile (fs : FS) (p : String) : Except Unit FS :=
  if p ∈ fs then Except.ok (fs.filter (fun q => q ≠ p)) else Except.error ()

/-- `os.rename(src, dst)`: `src` disappears, `dst` now exists (replaced if it
already existed).  Only ever called by the source after checking `src` exists. -/
def fsRename (fs : FS) (src dst : String) : FS :=
  dst :: fs.filter (fun q => q ≠ src ∧ q ≠ dst)

/-- `cleanup_file` (`src/main.py` lines 166-177) run with its exception
behaviour visible: `try: if os.path.exists(p): os.remove(p) except: pass`.
The result is `Except.ok` exactly when the call does not raise. -/
def cleanup_file_run (fs : FS) (p : String) : Except Unit FS :=
  match (if osPathExists fs p then osRemoveFile fs p else Except.ok fs) with
  | Except.ok fs2 => Except.ok fs2
  | Except.error _ => Except.ok fs

/-- The store state after `cleanup_file p` (`src/main.py` lines 166-177). -/
def cleanup_file (fs : FS) (p : String) : FS :=
  match cleanup_file_run fs p with
  | Except.ok fs2 => fs2
  | Except.error _ => fs

/-! ## Still-frame image format, quality and ffmpeg command
(`src/utils/video_tools.py`) -/

/-- Image-format normalization shared by `extract_first_frame` (lines 42-46)
and `extract_last_frame` (lines 160-164): lower-case, map `jpeg` to `jpg`,
and coerce anything that is neither `png` nor `jpg` to `png`. -/
def normalize_image_format (image_format : String) : String :=
  let fmt := pyLower image_format
  let fmt2 := if fmt = "jpeg" then "jpg" else fmt
  if fmt2 ∈ (["png", "jpg"] : List String) then fmt2 else "png"

/-- Output filename `f"{file_id}.{fmt}"` built by the frame extractors. -/
def frame_output_filename (file_id image_format : String) : String :=
  file_id ++ "." ++ normalize_image_format image_format

/-- How the JSON routes read the requested format (`src/main.py` line 334):
`data.get("format") if isinstance(data.get("format"), str) else "png"`.
The argument is the raw field value, `none` when the field is absent. -/
def requested_image_format_string (fmtField : Option String) : String :=
  match fmtField with
  | some s => s
  | none => "png"

/-- The jpg quality actually used (`src/utils/video_tools.py` line 119 and
line 231): the requested value when it is an integer in `[2, 31]`, else `2`.
`none` models an absent or non-integer request value. -/
def jpg_quality (quality : Option Int) : Int :=
  match quality with
  | some q => if 2 ≤ q ∧ q ≤ 31 then q else 2
  | none => 2

/-- Python truthiness of an optional int (`if width or height:`): `None` and
`0` are falsy. -/
def optIntTruthy : Option Int → Bool
  | some n => decide (n ≠ 0)
  | none => false

/-- Python truthiness of an optional string (`if sws_flags:`). -/
def optStrTruthy : Option String → Bool
  | some s => decide (s ≠ "")
  | none => false

/-- The `-vf scale=...` / `-sws_flags` part shared by both frame extractors
(`src/utils/video_tools.py` lines 103-111 and 218-225). -/
def scale_cmd_args (width height : Option Int) (sws_flags : Option String) : List String :=
  if optIntTruthy width || optIntTruthy height then
    let w := match width with
      | some n => if 0 < n then n else -1
      | none => -1
    let h := match height with
      | some n => if 0 < n then n else -1
      | none => -1
    ["-vf", "scale=" ++ toString w ++ ":" ++ toString h] ++
      (if optStrTruthy sws_flags then ["-sws_flags", sws_flags.getD ""] else [])
  else []

/-- Format/quality arguments shared by both extractors
(`src/utils/video_tools.py` lines 113-124 and 227-234). -/
def format_cmd_args (image_format : String) (quality : Option Int) : List String :=
  let fmt := pyLower image_format
  let fmt2 := if fmt = "jpeg" then "jpg" else fmt
  if fmt2 = "jpg" then ["-q:v", toString (jpg_quality quality)]
  else if fmt2 = "png" then ["-compression_level", "0", "-pix_fmt", "rgb24"]
  else []

/-- The full argument list built by `_run_ffmpeg_extract_first_frame`
(`src/utils/video_tools.py` lines 87-126). -/
def build_first_frame_cmd (input_path output_path : String) (width height : Option Int)
    (image_format : String) (quality : Option Int) (sws_flags : Option String) : List String :=
  ["ffmpeg", "-hide_banner", "-loglevel", "error", "-y", "-ss", "0",
    "-i", input_path, "-frames:v", "1"]
    ++ scale_cmd_args width height sws_flags
    ++ format_cmd_args image_format quality
    ++ [output_path]

/-- The full argument list built by `_run_ffmpeg_extract_last_frame`
(`src/utils/video_tools.py` lines 204-236). -/
def build_last_frame_cmd (input_path output_path : String) (width height : Option Int)
    (image_format : String) (quality : Option Int) (sws_flags : Option String) : List String :=
  ["ffmpeg", "-hide_banner", "-loglevel", "error", "-y", "-sseof", "-0.1",
    "-i", input_path, "-frames:v", "1"]
    ++ scale_cmd_args width height sws_flags
    ++ format_cmd_args image_format quality
    ++ [output_path]

/-! ## URL download extension inference (`src/main.py` lines 69-89) -/

/-- The final path component of a POSIX path (everything after the last `/`). -/
def lastComponent (cs : List Char) : List Char :=
  cs.foldl (fun acc c => if c = '/' then [] else acc ++ [c]) []

/-- `os.path.splitext(p)[1]`: the extension of the final path component,
i.e. the part from its last dot on, empty when the component has no dot or
when every character before that dot is itself a dot (hidden files like
`.bashrc` have no extension). -/
def splitextExt (p : String) : String :=
  let comp := lastComponent p.data
  let r := comp.reverse
  match r.dropWhile (fun c => c ≠ '.') with
  | [] => ""
  | _ :: before =>
    if before.any (fun c => c ≠ '.') then
      String.mk ('.' :: (r.takeWhile (fun c => c ≠ '.')).reverse)
    else ""

/-- The allow-list of recognized video suffixes (`src/main.py` line 74). -/
def allowed_video_exts : List String :=
  [".mp4", ".mov", ".m4v", ".webm", ".mkv", ".avi"]

/-- Python substring test on the lower-cased Content-Type header value. -/
def ct_has (needle contentType : String) : Bool :=
  containsSub needle.data (pyLower contentType).data

/-- Extension inference of `download_file_from_url` (`src/main.py` lines
69-89): the lower-cased URL path suffix when it is on the allow-list,
otherwise a Content-Type based mapping defaulting to `.mp4`.
`parsedPath` is `urlparse(url).path`; `contentType` is the response's
Content-Type header value (empty string when absent). -/
def infer_video_ext (parsedPath contentType : String) : String :=
  let path_ext := pyLower (splitextExt parsedPath)
  if path_ext ∈ allowed_video_exts then path_ext
  else
    if ct_has "video/mp4" contentType then ".mp4"
    else if ct_has "video/webm" contentType then ".webm"
    else if ct_has "video/quicktime" contentType then ".mov"
    else if ct_has "video/x-matroska" contentType then ".mkv"
    else ".mp4"

/-! ## Basic Pitch output discovery (`src/utils/convert.py` lines 71-93) -/

/-- The `for possible_file in possible_files: ... break / else: raise` loop:
rename the first existing candidate to `target`, or raise when none exists. -/
def rename_first_existing (fs : FS) (target : String) : List String → Except String FS
  | [] => Except.error "Basic Pitch 转换完成但找不到输出的 MIDI 文件"
  | p :: rest =>
    if p ∈ fs then Except.ok (fsRename fs p target)
    else rename_first_existing fs target rest

/-- The output-discovery half of `_convert_to_midi_sync`
(`src/utils/convert.py` lines 71-93), run after `predict_and_save` returned:
check `{input_basename}_basic_pitch.mid` first, then the fallback patterns
`{input_basename}.mid` and `{input_basename}_transcription.mid`, renaming the
first match to `{file_id}.mid`; raise when none exists. -/
def convert_to_midi_sync_locate (fs : FS) (output_dir input_basename file_id : String) :
    Except String FS :=
  let generated := output_dir ++ "/" ++ input_basename ++ "_basic_pitch.mid"
  let target := output_dir ++ "/" ++ file_id ++ ".mid"
  if generated ∈ fs then Except.ok (fsRename fs generated target)
  else rename_first_existing fs target
    [output_dir ++ "/" ++ input_basename ++ ".mid",
     output_dir ++ "/" ++ input_basename ++ "_transcription.mid"]

/-! ## Direct file responses (`src/main.py` lines 356-363 and 413-418) -/

/-- A `FileResponse` as constructed by the frame routes: path, media type,
download filename, and the background tasks that the framework runs only
after the response body has been fully sent. -/
structure DirectFileResponse where
  path : String
  media_type : String
  filename : String
  background : List String
deriving DecidableEq, Repr

/-- The response built on the first-frame route's success path
(`src/main.py` lines 356-363): media type is the literal `"image/png"` and
deletion of `frame_path` is scheduled as a post-response background task. -/
def first_frame_file_response (frame_path frame_filename : String) : DirectFileResponse :=
  { path := frame_path
    media_type := "image/png"
    filename := frame_filename
    background := [frame_path] }

/-- The response built on the last-frame route's success path
(`src/main.py` lines 413-418); identical shape to the first-frame one. -/
def last_frame_file_response (frame_path frame_filename : String) : DirectFileResponse :=
  { path := frame_path
    media_type := "image/png"
    filename := frame_filename
    background := [frame_path] }

/-- Modelled from the spec: the "media type appropriate to the artifact's
actual image format (png or jpg)" that the claim says the response carries.
Used only to compare the spec's words with the code's behaviour. -/
def appropriate_media_type (fmt : String) : String :=
  if fmt = "jpg" then "image/jpeg" else "image/png"

/-! ## Effect model of the first-frame route (`src/main.py` lines 322-375)

The two external effects — the streamed HTTP download and the ffmpeg
subprocess — can each end in several ways that the handler cannot
distinguish upfront; a scenario value selects which one happens. -/

/-- Outcome of the `requests.get` + chunked write in `download_file_from_url`
(`src/main.py` lines 64-107):
`success` = file fully written; `errEarly` = the request failed before the
output file was opened (bad status, connect error); `errMid` = the stream
failed after the output file was created, leaving a partial file behind. -/
inductive DlOutcome
  | success
  | errEarly
  | errMid
deriving DecidableEq, Repr

/-- Outcome of the ffmpeg subprocess in `_run_ffmpeg_extract_first_frame`
(`src/utils/video_tools.py` lines 128-139):
`okFrame` = exit 0 with a valid frame written; `failNoFile` = non-zero exit
with no output file; `failLeftFile` = non-zero exit after a (partial) output
file was created; `zeroExitEmpty` = exit 0 but the output file is empty. -/
inductive FfOutcome
  | okFrame
  | failNoFile
  | failLeftFile
  | zeroExitEmpty
deriving DecidableEq, Repr

/-- Whether the scenario leaves the ffmpeg output file empty on disk. -/
def ffWroteEmpty : FfOutcome → Bool
  | FfOutcome.zeroExitEmpty => true
  | _ => false

/-- Store effect of `download_file_from_url` (`src/main.py` lines 58-107):
on success the downloaded file exists at `uploadPath` and the path is
returned; a `requests.RequestException` is re-raised as `HTTPException 400`,
with the partial file left in place in the `errMid` case. -/
def download_file_from_url (fs : FS) (uploadPath : String) (dl : DlOutcome) :
    FS × Except Nat String :=
  match dl with
  | DlOutcome.success => (uploadPath :: fs, Except.ok uploadPath)
  | DlOutcome.errEarly => (fs, Except.error 400)
  | DlOutcome.errMid => (uploadPath :: fs, Except.error 400)

/-- Store effect of `_run_ffmpeg_extract_first_frame`
(`src/utils/video_tools.py` lines 72-139): it never deletes anything; on a
non-zero exit it raises, with whatever ffmpeg wrote left in place. -/
def run_ffmpeg_extract_first_frame (fs : FS) (outputPath : String) (ff : FfOutcome) :
    FS × Except String Unit :=
  match ff with
  | FfOutcome.okFrame => (outputPath :: fs, Except.ok ())
  | FfOutcome.failNoFile => (fs, Except.error "ffmpeg 失败")
  | FfOutcome.failLeftFile => (outputPath :: fs, Except.error "ffmpeg 失败")
  | FfOutcome.zeroExitEmpty => (outputPath :: fs, Except.ok ())

/-- Store effect of `extract_first_frame` (`src/utils/video_tools.py` lines
16-69): run ffmpeg, then raise if the output file is missing or empty —
without deleting an empty output file. -/
def extract_first_frame (fs : FS) (outputFilename : String) (ff : FfOutcome) :
    FS × Except String String :=
  let outputPath := "frames/" ++ outputFilename
  match run_ffmpeg_extract_first_frame fs outputPath ff with
  | (fs2, Except.error e) => (fs2, Except.error e)
  | (fs2, Except.ok _) =>
    if !(osPathExists fs2 outputPath) || ffWroteEmpty ff then
      (fs2, Except.error "ffmpeg 执行完成但未生成有效的首帧文件")
    else (fs2, Except.ok outputFilename)

/-- What the first-frame route sends back. -/
inductive RouteResult
  | fileResponse (resp : DirectFileResponse)
  | httpErr (code : Nat)
deriving DecidableEq, Repr

/-- The request body of `video_first_frame_json` (`src/main.py` lines
340-375), from `video_filepath = None` on: download, extract, delete the
input, schedule deletion of the frame after the response; in the `except`
branches, `cleanup_file` runs only on the paths recorded in `video_filepath`
and `frame_path` (both still `None` for anything that failed before its
assignment).  `uploadPath` is the uuid-based uploads path the download would
use; `frameFilename` the uuid-based output name chosen by the extractor. -/
def video_first_frame_json_run (fs : FS) (uploadPath frameFilename : String)
    (dl : DlOutcome) (ff : FfOutcome) : FS × RouteResult :=
  match download_file_from_url fs uploadPath dl with
  | (fs1, Except.error code) => (fs1, RouteResult.httpErr code)
  | (fs1, Except.ok video_filepath) =>
    match extract_first_frame fs1 frameFilename ff with
    | (fs2, Except.error _) =>
      (cleanup_file fs2 video_filepath, RouteResult.httpErr 500)
    | (fs2, Except.ok frame_filename) =>
      let frame_path := "frames/" ++ frame_filename
      let fs3 := cleanup_file fs2 video_filepath
      (fs3, RouteResult.fileResponse (first_frame_file_response frame_path frame_filename))

/-- The artifacts a scenario creates during the request: the uploads file
whenever the download opened it, and the frames file whenever ffmpeg wrote
anything. -/
def createdArtifacts (uploadPath frameFilename : String) (dl : DlOutcome) (ff : FfOutcome) :
    List String :=
  match dl with
  | DlOutcome.errEarly => []
  | DlOutcome.errMid => [uploadPath]
  | DlOutcome.success =>
    uploadPath :: (match ff with
      | FfOutcome.failNoFile => []
      | _ => ["frames/" ++ frameFilename])

/-! ## Execution context of blocking calls (concurrency structure)

Each handler body runs on the single request-acceptance event loop; only code
wrapped in `loop.run_in_executor(None, ...)` runs on a worker thread.  The
lists below record, for every blocking call the source makes, whether the
source wraps it in an executor. -/

/-- A blocking call made somewhere in the source, and whether the source runs
it on a worker execution context (`run_in_executor`) or directly on the
request-handling event loop. -/
structure BlockingCall where
  call : String
  onWorker : Bool
deriving DecidableEq, Repr

/-- `download_file_from_url` (`src/main.py` lines 58-101): `requests.get`
and the chunked file write are called directly in the `async def` body. -/
def download_file_from_url_blocking : List BlockingCall :=
  [⟨"requests.get", false⟩, ⟨"response.iter_content write loop", false⟩]

/-- `download_mp3_from_url` (`src/main.py` lines 109-136): same shape. -/
def download_mp3_from_url_blocking : List BlockingCall :=
  [⟨"requests.get", false⟩, ⟨"response.iter_content write loop", false⟩]

/-- `mp3_to_midi` (`src/utils/convert.py` lines 34-42) dispatches its
blocking conversion through `loop.run_in_executor`. -/
def mp3_to_midi_blocking : List BlockingCall :=
  [⟨"_convert_to_midi_sync", true⟩]

/-- `mp3_to_wav` (`src/utils/audio_tools.py` lines 33-41) dispatches its
blocking conversion through `loop.run_in_executor`. -/
def mp3_to_wav_blocking : List BlockingCall :=
  [⟨"_convert_to_wav_sync", true⟩]

/-- `extract_first_frame` (`src/utils/video_tools.py` lines 50-64)
dispatches the ffmpeg subprocess through `loop.run_in_executor`. -/
def extract_first_frame_blocking : List BlockingCall :=
  [⟨"_run_ffmpeg_extract_first_frame", true⟩]

/-- `extract_last_frame` (`src/utils/video_tools.py` lines 168-181)
dispatches the ffmpeg subprocess through `loop.run_in_executor`. -/
def extract_last_frame_blocking : List BlockingCall :=
  [⟨"_run_ffmpeg_extract_last_frame", true⟩]

/-- All blocking conversion operations in the source. -/
def conversionBlockingCalls : List BlockingCall :=
  mp3_to_midi_blocking ++ mp3_to_wav_blocking
    ++ extract_first_frame_blocking ++ extract_last_frame_blocking

/-- All blocking outbound network fetches in the source. -/
def networkFetchBlockingCalls : List BlockingCall :=
  download_file_from_url_blocking ++ download_mp3_from_url_blocking

/-- Every blocking call a request can make. -/
def allBlockingCalls : List BlockingCall :=
  conversionBlockingCalls ++ networkFetchBlockingCalls

/-! ## Request parameter model (audio routes and JSON routes) -/

/-- A parsed JSON value as `json.loads` produces it (ints suffice for the
numeric fields the service reads; object field lists carry distinct keys,
as a Python dict does). -/
inductive PyJson
  | null
  | bool (b : Bool)
  | num (n : Int)
  | str (s : String)
  | arr (elems : List PyJson)
  | obj (fields : List (String × PyJson))

/-- Python truthiness of a JSON value. -/
def pyTruthy : PyJson → Bool
  | PyJson.null => false
  | PyJson.bool b => b
  | PyJson.num n => decide (n ≠ 0)
  | PyJson.str s => decide (s ≠ "")
  | PyJson.arr elems => !elems.isEmpty
  | PyJson.obj fields => !fields.isEmpty

/-- Dict field lookup. -/
def lookupField (fields : List (String × PyJson)) (k : String) : Option PyJson :=
  match fields.find? (fun kv => kv.fst = k) with
  | some kv => some kv.snd
  | none => none

/-- Python `data.get(k)`: returns the value (or `None`) when `data` is a
dict, raises `AttributeError` on every other value. -/
def dictGet (data : PyJson) (k : String) : Except String (Option PyJson) :=
  match data with
  | PyJson.obj fields => Except.ok (lookupField fields k)
  | _ => Except.error "AttributeError: object has no attribute get"

/-- Truthiness of `data.get(k)`'s result (`None` is falsy). -/
def optJsonTruthy : Option PyJson → Bool
  | some v => pyTruthy v
  | none => false

/-- An uploaded file as FastAPI hands it over: the object itself is always
truthy; its declared filename may be `None`. -/
structure FileUpload where
  filename : Option String

/-- Python truthiness of the `file` parameter (`UploadFile` objects are
truthy, `None` is falsy). -/
def fileTruthy (file : Option FileUpload) : Bool :=
  file.isSome

/-- The file/network operations a handler can perform, in order. -/
inductive IOAction
  | saveUpload
  | downloadMp3
  | convertMidi
  | convertWav
  | removeFile (p : String)
deriving DecidableEq, Repr

/-- What an audio handler sends back: a success payload, an
`HTTPException` status, or an uncaught Python error. -/
inductive HandlerOutcome
  | success (filename : String)
  | httpErr (code : Nat)
deriving DecidableEq, Repr

/-- Outcomes of the external effects an audio request may reach: whether
the URL download succeeds, whether the conversion succeeds, the uuid-based
paths the request would allocate. -/
structure AudioEnv where
  mp3Path : String
  outName : String
  downloadOk : Bool
  convertOk : Bool

/-- The body of `convert_mp3_to_midi` (`src/main.py` lines 192-258):
validate that exactly one (truthy) input was supplied, check the upload's
extension, acquire the input, convert, delete the input.  Returns the
response outcome together with the I/O actions performed, in order.
`url` is the raw value the caller passed for the `url` parameter
(a form string, or whatever `data.get("url")` produced on the JSON route). -/
def convert_mp3_to_midi_route (file : Option FileUpload) (url : Option PyJson)
    (env : AudioEnv) : HandlerOutcome × List IOAction :=
  if !(fileTruthy file) && !(optJsonTruthy url) then
    (HandlerOutcome.httpErr 400, [])
  else if fileTruthy file && optJsonTruthy url then
    (HandlerOutcome.httpErr 400, [])
  else
    let acquired : Except (HandlerOutcome × List IOAction) (List IOAction) :=
      match file with
      | some f =>
        match f.filename with
        | none => Except.error (HandlerOutcome.httpErr 500, [])
        | some name =>
          if strEndsWith (pyLower name) ".mp3" then Except.ok [IOAction.saveUpload]
          else Except.error (HandlerOutcome.httpErr 400, [])
      | none =>
        if env.downloadOk then Except.ok [IOAction.downloadMp3]
        else Except.error (HandlerOutcome.httpErr 400, [IOAction.downloadMp3])
    match acquired with
    | Except.error r => r
    | Except.ok acts =>
      if env.convertOk then
        (HandlerOutcome.success env.outName,
          acts ++ [IOAction.convertMidi, IOAction.removeFile env.mp3Path])
      else
        (HandlerOutcome.httpErr 500,
          acts ++ [IOAction.convertMidi, IOAction.removeFile env.mp3Path])

/-- The body of `convert_mp3_to_wav_endpoint` (`src/main.py` lines 260-319);
identical control flow with the WAV converter. -/
def convert_mp3_to_wav_route (file : Option FileUpload) (url : Option PyJson)
    (env : AudioEnv) : HandlerOutcome × List IOAction :=
  if !(fileTruthy file) && !(optJsonTruthy url) then
    (HandlerOutcome.httpErr 400, [])
  else if fileTruthy file && optJsonTruthy url then
    (HandlerOutcome.httpErr 400, [])
  else
    let acquired : Except (HandlerOutcome × List IOAction) (List IOAction) :=
      match file with
      | some f =>
        match f.filename with
        | none => Except.error (HandlerOutcome.httpErr 500, [])
        | some name =>
          if strEndsWith (pyLower name) ".mp3" then Except.ok [IOAction.saveUpload]
          else Except.error (HandlerOutcome.httpErr 400, [])
      | none =>
        if env.downloadOk then Except.ok [IOAction.downloadMp3]
        else Except.error (HandlerOutcome.httpErr 400, [IOAction.downloadMp3])
    match acquired with
    | Except.error r => r
    | Except.ok acts =>
      if env.convertOk then
        (HandlerOutcome.success env.outName,
          acts ++ [IOAction.convertWav, IOAction.removeFile env.mp3Path])
      else
        (HandlerOutcome.httpErr 500,
          acts ++ [IOAction.convertWav, IOAction.removeFile env.mp3Path])

/-- The body of `convert_mp3_to_midi_json` (`src/main.py` lines 434-447):
fall back to `{}` when the body fails to parse (`parsed = none`), then call
`convert_mp3_to_midi(request, file=None, url=data.get("url"))`.  The
`Except.error` case is an uncaught Python `AttributeError` (HTTP 500):
`data.get` is attempted on a non-dict JSON value. -/
def convert_mp3_to_midi_json_route (parsed : Option PyJson) (env : AudioEnv) :
    Except String (HandlerOutcome × List IOAction) :=
  let data := parsed.getD (PyJson.obj [])
  match dictGet data "url" with
  | Except.error e => Except.error e
  | Except.ok urlVal => Except.ok (convert_mp3_to_midi_route none urlVal env)

/-- Outcome of the parameter-extraction prologue of a video JSON route. -/
inductive JsonRouteCheck
  | rejected (code : Nat)
  | accepted (url : PyJson) (image_format : String)

/-- The prologue of `video_first_frame_json` (`src/main.py` lines 326-338):
fall back to `{}` on a parse failure, read `url` off `(data or {})`, read
the option fields off `data` itself, then reject with 400 when `url` is
falsy.  The `Except.error` case is an uncaught `AttributeError` (HTTP 500)
from calling `.get` on a non-dict value. -/
def video_first_frame_json_validate (parsed : Option PyJson) :
    Except String JsonRouteCheck :=
  let data := parsed.getD (PyJson.obj [])
  let dataOr := if pyTruthy data then data else PyJson.obj []
  match dictGet dataOr "url" with
  | Except.error e => Except.error e
  | Except.ok urlVal =>
    match dictGet data "width" with
    | Except.error e => Except.error e
    | Except.ok _ =>
      match dictGet data "height" with
      | Except.error e => Except.error e
      | Except.ok _ =>
        match dictGet data "format" with
        | Except.error e => Except.error e
        | Except.ok fmtVal =>
          match dictGet data "quality" with
          | Except.error e => Except.error e
          | Except.ok _ =>
            match dictGet data "sws_flags" with
            | Except.error e => Except.error e
            | Except.ok _ =>
              let image_format := requested_image_format_string
                (match fmtVal with
                  | some (PyJson.str s) => some s
                  | _ => none)
              match urlVal with
              | some u =>
                if pyTruthy u then Except.ok (JsonRouteCheck.accepted u image_format)
                else Except.ok (JsonRouteCheck.rejected 400)
              | none => Except.ok (JsonRouteCheck.rejected 400)

/-! ## Theorems -/

/-- C9: for every path, `cleanup_file` never raises, removes the file when it
is present, leaves the store unchanged when it is absent, leaves the path
absent, and is idempotent: a second call on the same path changes nothing. -/
theorem c9_cleanup_file_idempotent (fs : FS) (p : String) :
    cleanup_file_run fs p = Except.ok (cleanup_file fs p)
    ∧ (p ∈ fs → cleanup_file fs p = fs.filter (fun q => q ≠ p))
    ∧ (p ∉ fs → cleanup_file fs p = fs)
    ∧ p ∉ cleanup_file fs p
    ∧ cleanup_file (cleanup_file fs p) p = cleanup_file fs p := by
  by_cases h : p ∈ fs
  · have h2 : p ∉ fs.filter (fun q => q ≠ p) := by simp
    refine ⟨?_, fun _ => ?_, fun hc => absurd h hc, ?_, ?_⟩ <;>
      simp [cleanup_file, cleanup_file_run, osPathExists, osRemoveFile, h, h2]
  · refine ⟨?_, fun hc => absurd hc h, fun _ => ?_, ?_, ?_⟩ <;>
      simp [cleanup_file, cleanup_file_run, osPathExists, osRemoveFile, h]

/-- C9 witness: `cleanup_file` on an absent path leaves the store unchanged. -/
theorem c9_cleanup_file_idempotent_witness :
    cleanup_file [] "uploads/x.mp3" = [] :=
  (c9_cleanup_file_idempotent [] "uploads/x.mp3").2.2.1 (by simp)

/-- C3 counterexample: the format string `"jpeg"` is neither `"png"` nor
`"jpg"`, so the claim says it is coerced to png; the code instead produces
jpg output (and a `.jpg` filename). -/
theorem c3_format_counterexample :
    normalize_image_format "jpeg" = "jpg"
    ∧ frame_output_filename "abc" "jpeg" = "abc.jpg"
    ∧ ("jpeg" : String) ≠ "png"
    ∧ ("jpeg" : String) ≠ "jpg"
    ∧ ("jpg" : String) ≠ "png" := by
  refine ⟨by decide, by decide, by decide, by decide, by decide⟩

/-- C3 amended: the requested format string is lower-cased and `jpeg` is
treated as a synonym of `jpg`; the output format (and filename extension) is
jpg exactly when the lower-cased string is `jpg` or `jpeg`, and png for every
other string, with png as the default when no format is supplied. -/
theorem c3_format_amended (s file_id : String) :
    normalize_image_format s =
      (if pyLower s = "jpg" ∨ pyLower s = "jpeg" then "jpg" else "png")
    ∧ frame_output_filename file_id s = file_id ++ "." ++ normalize_image_format s
    ∧ requested_image_format_string none = "png"
    ∧ normalize_image_format (requested_image_format_string none) = "png" := by
  refine ⟨?_, rfl, rfl, by decide⟩
  by_cases h1 : pyLower s = "jpeg"
  · simp [normalize_image_format, h1]
  · by_cases h2 : pyLower s = "jpg"
    · simp [normalize_image_format, h1, h2]
    · by_cases h3 : pyLower s = "png"
      · simp [normalize_image_format, h1, h2, h3]
      · simp [normalize_image_format, h1, h2, h3]

/-- C4: when the (case-insensitively compared, i.e. lower-cased) URL path
suffix is on the allow-list, the stored extension is exactly that suffix and
the declared content type is irrelevant; otherwise the extension comes from
the Content-Type mapping (`video/mp4`, `video/webm`, `video/quicktime`,
`video/x-matroska`, tested as substrings in that order), defaulting to
`.mp4` when nothing matches. -/
theorem c4_extension_inference (p ct : String) :
    (pyLower (splitextExt p) ∈ allowed_video_exts →
      infer_video_ext p ct = pyLower (splitextExt p)
      ∧ (∀ ct2 : String, infer_video_ext p ct2 = infer_video_ext p ct))
    ∧ (pyLower (splitextExt p) ∉ allowed_video_exts →
      (ct_has "video/mp4" ct = true → infer_video_ext p ct = ".mp4")
      ∧ (ct_has "video/mp4" ct = false → ct_has "video/webm" ct = true →
          infer_video_ext p ct = ".webm")
      ∧ (ct_has "video/mp4" ct = false → ct_has "video/webm" ct = false →
          ct_has "video/quicktime" ct = true → infer_video_ext p ct = ".mov")
      ∧ (ct_has "video/mp4" ct = false → ct_has "video/webm" ct = false →
          ct_has "video/quicktime" ct = false → ct_has "video/x-matroska" ct = true →
          infer_video_ext p ct = ".mkv")
      ∧ (ct_has "video/mp4" ct = false → ct_has "video/webm" ct = false →
          ct_has "video/quicktime" ct = false → ct_has "video/x-matroska" ct = false →
          infer_video_ext p ct = ".mp4")) := by
  constructor
  · intro h
    exact ⟨by simp [infer_video_ext, h], fun ct2 => by simp [infer_video_ext, h]⟩
  · intro h
    refine ⟨fun h1 => ?_, fun h1 h2 => ?_, fun h1 h2 h3 => ?_,
      fun h1 h2 h3 h4 => ?_, fun h1 h2 h3 h4 => ?_⟩
    · simp [infer_video_ext, h, h1]
    · simp [infer_video_ext, h, h1, h2]
    · simp [infer_video_ext, h, h1, h2, h3]
    · simp [infer_video_ext, h, h1, h2, h3, h4]
    · simp [infer_video_ext, h, h1, h2, h3, h4]

/-- C4 witness: a URL path ending in `.MOV` keeps that suffix (lower-cased)
even though the response declares `video/webm`. -/
theorem c4_extension_inference_witness :
    infer_video_ext "/videos/CLIP.MOV" "video/webm" = ".mov" :=
  ((c4_extension_inference "/videos/CLIP.MOV" "video/webm").1 (by decide)).1

/-- C5: after the engine runs, the converter checks the primary pattern
`{base}_basic_pitch.mid` first; if absent it tries `{base}.mid` and then
`{base}_transcription.mid` in order, renaming the first existing candidate
to the unique target `{file_id}.mid`; when none of the three exists it fails
with the ConversionIncomplete error. -/
theorem c5_midi_output_discovery (fs : FS) (d b i : String) :
    (d ++ "/" ++ b ++ "_basic_pitch.mid" ∈ fs →
      convert_to_midi_sync_locate fs d b i =
        Except.ok (fsRename fs (d ++ "/" ++ b ++ "_basic_pitch.mid") (d ++ "/" ++ i ++ ".mid")))
    ∧ (d ++ "/" ++ b ++ "_basic_pitch.mid" ∉ fs → d ++ "/" ++ b ++ ".mid" ∈ fs →
      convert_to_midi_sync_locate fs d b i =
        Except.ok (fsRename fs (d ++ "/" ++ b ++ ".mid") (d ++ "/" ++ i ++ ".mid")))
    ∧ (d ++ "/" ++ b ++ "_basic_pitch.mid" ∉ fs → d ++ "/" ++ b ++ ".mid" ∉ fs →
        d ++ "/" ++ b ++ "_transcription.mid" ∈ fs →
      convert_to_midi_sync_locate fs d b i =
        Except.ok (fsRename fs (d ++ "/" ++ b ++ "_transcription.mid") (d ++ "/" ++ i ++ ".mid")))
    ∧ (d ++ "/" ++ b ++ "_basic_pitch.mid" ∉ fs → d ++ "/" ++ b ++ ".mid" ∉ fs →
        d ++ "/" ++ b ++ "_transcription.mid" ∉ fs →
      convert_to_midi_sync_locate fs d b i =
        Except.error "Basic Pitch 转换完成但找不到输出的 MIDI 文件") := by
  refine ⟨fun h1 => ?_, fun h1 h2 => ?_, fun h1 h2 h3 => ?_, fun h1 h2 h3 => ?_⟩
  · simp [convert_to_midi_sync_locate, h1]
  · simp [convert_to_midi_sync_locate, rename_first_existing, h1, h2]
  · simp [convert_to_midi_sync_locate, rename_first_existing, h1, h2, h3]
  · simp [convert_to_midi_sync_locate, rename_first_existing, h1, h2, h3]

/-- C5 witness: with only the primary pattern present, it is renamed to the
target name. -/
theorem c5_midi_output_discovery_witness :
    convert_to_midi_sync_locate ["midis/song_basic_pitch.mid"] "midis" "song" "id1" =
      Except.ok (fsRename ["midis/song_basic_pitch.mid"] "midis/song_basic_pitch.mid" "midis/id1.mid") :=
  (c5_midi_output_discovery ["midis/song_basic_pitch.mid"] "midis" "song" "id1").1 (by decide)

/-- C6: the `-q:v` value passed to ffmpeg for jpg output is the requested
quality when it is an integer in `[2, 31]` and `2` in every other case
(out of range, non-integer or absent, all modelled as `none`); in particular
`quality = 50` becomes `2` in both full extractor command lines, and
`quality = 2` is passed through unchanged. -/
theorem c6_jpg_quality_clamp :
    (∀ q : Int, 2 ≤ q → q ≤ 31 → jpg_quality (some q) = q)
    ∧ (∀ q : Int, q < 2 ∨ 31 < q → jpg_quality (some q) = 2)
    ∧ jpg_quality none = 2
    ∧ build_first_frame_cmd "in.mp4" "frames/a.jpg" none none "jpg" (some 50) none =
        ["ffmpeg", "-hide_banner", "-loglevel", "error", "-y", "-ss", "0",
          "-i", "in.mp4", "-frames:v", "1", "-q:v", "2", "frames/a.jpg"]
    ∧ build_first_frame_cmd "in.mp4" "frames/a.jpg" none none "jpg" (some 2) none =
        ["ffmpeg", "-hide_banner", "-loglevel", "error", "-y", "-ss", "0",
          "-i", "in.mp4", "-frames:v", "1", "-q:v", "2", "frames/a.jpg"]
    ∧ build_last_frame_cmd "in.mp4" "frames/a.jpg" none none "jpg" (some 50) none =
        ["ffmpeg", "-hide_banner", "-loglevel", "error", "-y", "-sseof", "-0.1",
          "-i", "in.mp4", "-frames:v", "1", "-q:v", "2", "frames/a.jpg"] := by
  refine ⟨fun q hq1 hq2 => ?_, fun q hq => ?_, rfl, by decide, by decide, by decide⟩
  · simp [jpg_quality, hq1, hq2]
  · have h : ¬ (2 ≤ q ∧ q ≤ 31) := by omega
    simp [jpg_quality, h]

/-- C6 witness: an in-range quality is passed through. -/
theorem c6_jpg_quality_clamp_witness : jpg_quality (some 7) = 7 :=
  c6_jpg_quality_clamp.1 7 (by decide) (by decide)

/-- C7: whenever an audio conversion request supplies both an upload and a
(truthy) URL, or neither, both audio handlers answer `HTTP 400` immediately
and perform no I/O action at all (nothing is downloaded, saved or
converted), whatever the downstream environment would have done. -/
theorem c7_exclusive_input_validation (file : Option FileUpload) (url : Option PyJson)
    (envM envW : AudioEnv)
    (h : (fileTruthy file = true ∧ optJsonTruthy url = true)
       ∨ (fileTruthy file = false ∧ optJsonTruthy url = false)) :
    convert_mp3_to_midi_route file url envM = (HandlerOutcome.httpErr 400, [])
    ∧ convert_mp3_to_wav_route file url envW = (HandlerOutcome.httpErr 400, []) := by
  rcases h with ⟨h1, h2⟩ | ⟨h1, h2⟩ <;>
    exact ⟨by simp [convert_mp3_to_midi_route, h1, h2],
           by simp [convert_mp3_to_wav_route, h1, h2]⟩

/-- C7 witness: a request with neither input gets `HTTP 400` and no I/O. -/
theorem c7_exclusive_input_validation_witness :
    convert_mp3_to_midi_route none none
        ⟨"uploads/u.mp3", "m.mid", true, true⟩ = (HandlerOutcome.httpErr 400, []) :=
  (c7_exclusive_input_validation none none
    ⟨"uploads/u.mp3", "m.mid", true, true⟩ ⟨"uploads/w.mp3", "w.wav", true, true⟩
    (Or.inr ⟨rfl, rfl⟩)).1

/-- C10 counterexample: the body `null` is valid JSON and lacks a `"url"`
field, so the claim says the handlers fall back to `{}` and answer the 400
missing-parameter error; instead `data.get("url")` (and `data.get("width")`
on the video route) raises an uncaught `AttributeError`, surfaced as an
HTTP 500, on both JSON routes. -/
theorem c10_json_route_counterexample :
    convert_mp3_to_midi_json_route (some PyJson.null)
        ⟨"uploads/a.mp3", "a.mid", true, true⟩ =
      Except.error "AttributeError: object has no attribute get"
    ∧ video_first_frame_json_validate (some PyJson.null) =
      Except.error "AttributeError: object has no attribute get"
    ∧ convert_mp3_to_midi_json_route (some PyJson.null)
        ⟨"uploads/a.mp3", "a.mid", true, true⟩ ≠
      Except.ok (HandlerOutcome.httpErr 400, []) := by
  refine ⟨rfl, rfl, fun h => ?_⟩
  have h2 : (Except.error "AttributeError: object has no attribute get" :
      Except String (HandlerOutcome × List IOAction)) =
      Except.ok (HandlerOutcome.httpErr 400, []) := h
  exact Except.noConfusion h2

/-- C10 amended: for a body that fails to parse as JSON (including an empty
body) the JSON handlers fall back to an empty object, and for a body parsing
to a JSON object without a `"url"` field they answer the 400
missing-parameter error with no file I/O; a body parsing to a non-object
JSON value (such as `null` or a list) instead raises an uncaught
`AttributeError` (HTTP 500). -/
theorem c10_json_route_amended (parsed : Option PyJson) (env : AudioEnv)
    (h : parsed = none
       ∨ ∃ fields, parsed = some (PyJson.obj fields) ∧ lookupField fields "url" = none) :
    convert_mp3_to_midi_json_route parsed env = Except.ok (HandlerOutcome.httpErr 400, [])
    ∧ video_first_frame_json_validate parsed = Except.ok (JsonRouteCheck.rejected 400) := by
  rcases h with rfl | ⟨fields, rfl, hurl⟩
  · exact ⟨rfl, rfl⟩
  · constructor
    · simp [convert_mp3_to_midi_json_route, dictGet, hurl, convert_mp3_to_midi_route,
        fileTruthy, optJsonTruthy]
    · by_cases hf : pyTruthy (PyJson.obj fields) = true
      · simp [video_first_frame_json_validate, dictGet, hf, hurl]
      · simp [video_first_frame_json_validate, dictGet, hf, lookupField]

/-- C10 amended witness: an unparseable body yields the 400
missing-parameter answer with no I/O on both JSON routes. -/
theorem c10_json_route_amended_witness :
    convert_mp3_to_midi_json_route none ⟨"uploads/b.mp3", "b.mid", true, true⟩ =
      Except.ok (HandlerOutcome.httpErr 400, []) :=
  (c10_json_route_amended none ⟨"uploads/b.mp3", "b.mid", true, true⟩ (Or.inl rfl)).1

/-- C2 counterexample: `requests.get` is a blocking outbound fetch that the
source calls directly inside the `async def` body of
`download_file_from_url` — on the request-acceptance loop, not on a worker —
so it is false that every blocking conversion and fetch runs on a worker. -/
theorem c2_worker_dispatch_counterexample :
    (⟨"requests.get", false⟩ : BlockingCall) ∈ allBlockingCalls
    ∧ ¬ (∀ c ∈ allBlockingCalls, c.onWorker = true) := by
  constructor
  · decide
  · intro h
    have h2 := h ⟨"requests.get", false⟩ (by decide)
    exact Bool.noConfusion h2

/-- C2 amended: every conversion operation is dispatched to a worker
execution context (`run_in_executor`), but every outbound network fetch
(`requests.get` and the chunked response write in both download helpers)
runs directly on the request-handling event loop. -/
theorem c2_worker_dispatch_amended :
    (∀ c ∈ conversionBlockingCalls, c.onWorker = true)
    ∧ (∀ c ∈ networkFetchBlockingCalls, c.onWorker = false) := by
  constructor <;> decide

/-- C2 amended witness: the MIDI conversion is dispatched to a worker. -/
theorem c2_worker_dispatch_amended_witness :
    (⟨"_convert_to_midi_sync", true⟩ : BlockingCall).onWorker = true :=
  c2_worker_dispatch_amended.1 ⟨"_convert_to_midi_sync", true⟩ (by decide)

/-- C8 counterexample: a successful jpg still-frame request produces an
artifact whose filename ends in `.jpg`, yet the route answers with the
hard-coded media type `image/png`, not the media type appropriate to the
artifact's actual jpg format. -/
theorem c8_media_type_counterexample :
    frame_output_filename "abc" "jpg" = "abc.jpg"
    ∧ (first_frame_file_response ("frames/" ++ frame_output_filename "abc" "jpg")
        (frame_output_filename "abc" "jpg")).media_type = "image/png"
    ∧ (last_frame_file_response ("frames/" ++ frame_output_filename "abc" "jpg")
        (frame_output_filename "abc" "jpg")).media_type = "image/png"
    ∧ appropriate_media_type "jpg" = "image/jpeg"
    ∧ (first_frame_file_response ("frames/" ++ frame_output_filename "abc" "jpg")
        (frame_output_filename "abc" "jpg")).media_type ≠ appropriate_media_type "jpg" := by
  refine ⟨by decide, rfl, rfl, by decide, by decide⟩

/-- C8 amended: in direct-transfer mode the response streams the artifact
with the fixed media type `image/png` regardless of the artifact's actual
format, and deletion of the artifact is scheduled as a background task that
runs only after the response has been fully sent; on the embedded
first-frame route, the success response is exactly this response for the
produced frame. -/
theorem c8_direct_transfer_amended (frame_path frame_filename : String) :
    (first_frame_file_response frame_path frame_filename).media_type = "image/png"
    ∧ (last_frame_file_response frame_path frame_filename).media_type = "image/png"
    ∧ frame_path ∈ (first_frame_file_response frame_path frame_filename).background
    ∧ frame_path ∈ (last_frame_file_response frame_path frame_filename).background
    ∧ (video_first_frame_json_run [] "uploads/u.mp4" "f.png"
        DlOutcome.success FfOutcome.okFrame).2 =
      RouteResult.fileResponse (first_frame_file_response "frames/f.png" "f.png") := by
  refine ⟨rfl, rfl, ?_, ?_, by decide⟩ <;>
    simp [first_frame_file_response, last_frame_file_response]

/-- C1 counterexample: the download succeeds, ffmpeg exits 0 but writes an
empty frame file; the first-frame route answers an error (HTTP 500), yet
`frames/f.png` — an artifact created during the request — is still in the
store afterwards: the handler only deletes paths already recorded in
`video_filepath` / `frame_path`, and `frame_path` is never assigned on this
failure path. -/
theorem c1_cleanup_counterexample :
    (video_first_frame_json_run [] "uploads/in.mp4" "f.png"
        DlOutcome.success FfOutcome.zeroExitEmpty).2 = RouteResult.httpErr 500
    ∧ "frames/f.png" ∈ createdArtifacts "uploads/in.mp4" "f.png"
        DlOutcome.success FfOutcome.zeroExitEmpty
    ∧ "frames/f.png" ∈ (video_first_frame_json_run [] "uploads/in.mp4" "f.png"
        DlOutcome.success FfOutcome.zeroExitEmpty).1 := by
  refine ⟨by decide, by decide, by decide⟩

/-- C1 amended: on a failure of the first-frame route, every artifact whose
path the handler has recorded is deleted before the error response — in
particular a fully downloaded input file never survives an error — but
artifacts from a mid-stage failure are not deleted: a partially downloaded
input (stream error after the file was created) and a partial or empty
ffmpeg output both remain in the store when the error response is sent. -/
theorem c1_cleanup_amended (fs : FS) (up fn : String) (dl : DlOutcome) (ff : FfOutcome)
    (hne : up ≠ "frames/" ++ fn) :
    (dl = DlOutcome.errMid →
      (video_first_frame_json_run fs up fn dl ff).2 = RouteResult.httpErr 400
      ∧ up ∈ (video_first_frame_json_run fs up fn dl ff).1)
    ∧ (dl = DlOutcome.success →
      (∀ code, (video_first_frame_json_run fs up fn dl ff).2 = RouteResult.httpErr code →
        up ∉ (video_first_frame_json_run fs up fn dl ff).1)
      ∧ ((ff = FfOutcome.failLeftFile ∨ ff = FfOutcome.zeroExitEmpty) →
        (video_first_frame_json_run fs up fn dl ff).2 = RouteResult.httpErr 500
        ∧ ("frames/" ++ fn) ∈ (video_first_frame_json_run fs up fn dl ff).1)) := by
  have hne2 : ("frames/" ++ fn) ≠ up := Ne.symm hne
  have hup1 : up ∈ up :: fs := List.mem_cons_self up fs
  have hup2 : up ∈ ("frames/" ++ fn) :: up :: fs := List.mem_cons_of_mem _ hup1
  have hfp : ("frames/" ++ fn) ∈ ("frames/" ++ fn) :: up :: fs := List.mem_cons_self _ _
  constructor
  · intro hdl
    subst hdl
    exact ⟨rfl, by simp [video_first_frame_json_run, download_file_from_url]⟩
  · intro hdl
    subst hdl
    constructor
    · intro code hcode
      cases ff
      · simp [video_first_frame_json_run, download_file_from_url, extract_first_frame,
          run_ffmpeg_extract_first_frame, ffWroteEmpty, osPathExists, hfp] at hcode
      · simp [video_first_frame_json_run, download_file_from_url, extract_first_frame,
          run_ffmpeg_extract_first_frame, cleanup_file, cleanup_file_run,
          osPathExists, osRemoveFile, hup1]
      · simp [video_first_frame_json_run, download_file_from_url, extract_first_frame,
          run_ffmpeg_extract_first_frame, cleanup_file, cleanup_file_run,
          osPathExists, osRemoveFile, hup2]
      · simp [video_first_frame_json_run, download_file_from_url, extract_first_frame,
          run_ffmpeg_extract_first_frame, ffWroteEmpty, cleanup_file, cleanup_file_run,
          osPathExists, osRemoveFile, hup2, hfp]
    · intro hff
      rcases hff with rfl | rfl <;>
        refine ⟨?_, ?_⟩ <;>
          simp [video_first_frame_json_run, download_file_from_url, extract_first_frame,
            run_ffmpeg_extract_first_frame, ffWroteEmpty, cleanup_file, cleanup_file_run,
            osPathExists, osRemoveFile, hup2, hfp, hne2]

/-- C1 amended witness: a non-zero ffmpeg exit that left a partial output
produces an error response with the partial frame still in the store. -/
theorem c1_cleanup_amended_witness :
    ("frames/g.png") ∈ (video_first_frame_json_run [] "uploads/in2.mp4" "g.png"
        DlOutcome.success FfOutcome.failLeftFile).1 :=
  (((c1_cleanup_amended [] "uploads/in2.mp4" "g.png" DlOutcome.success
      FfOutcome.failLeftFile (by decide)).2 rfl).2 (Or.inl rfl)).2
